import Mathlib

/-!
Shallow embedding of `src/main.py`, a thin client for the CTA Bus Tracker API.

The embedding models the parsed response bodies (JSON objects / xmltodict
dictionaries) as an inductive `Val` type, Python dictionary operations and
exceptions in an `Except PyErr` discipline, the relevant fragment of
`pandas.DataFrame` construction and column renaming, and the four
consumer-facing functions `get_bus_routes`, `get_bus_vehicles`,
`get_bus_routes_with_key` and `get_bus_stops_with_key`.

Library-version assumptions, recorded where they matter:
  * pandas >= 2.0: `pd.DataFrame([])` has `RangeIndex` (integer) columns, and
    the `.str` accessor on a non-string index raises `AttributeError`.
  * requests >= 2.27: `response.json()` failures raise
    `requests.exceptions.JSONDecodeError`, a `RequestException` subclass.
-/

namespace CTA

/-- A parsed response body value: a JSON value or an xmltodict result.
Strings, string-keyed mappings (association lists, first binding wins,
mirroring Python dict lookup), sequences, and Python `None` (xmltodict
produces `None` for empty elements). -/
inductive Val where
  | str  : String → Val
  | obj  : List (String × Val) → Val
  | list : List Val → Val
  | null : Val

/-- Python exception kinds distinguished by the handlers in `src/main.py`:
`requestErr` is `requests.exceptions.RequestException` (and its subclasses,
including `requests.exceptions.JSONDecodeError` for requests >= 2.27); the
others are ordinary exceptions caught only by a bare `except Exception`. -/
inductive PyErr where
  | requestErr
  | keyErr
  | typeErr
  | attrErr
  | valueErr
deriving DecidableEq

/-- Python dictionary lookup on an association list: the first binding for the
key, if any. -/
def alistLookup : List (String × Val) → String → Option Val
  | [], _ => none
  | p :: ps, k => if p.1 = k then some p.2 else alistLookup ps k

/-- Python subscription `v[k]` with a string key: `KeyError` when a mapping
lacks the key, `TypeError` on strings, sequences and `None`. -/
def Val.getItem : Val → String → Except PyErr Val
  | .obj kvs, k =>
    match alistLookup kvs k with
    | some v => .ok v
    | none => .error .keyErr
  | _, _ => .error .typeErr

/-- Python `v.get(k, default)`: defined on mappings; on any other value the
attribute `get` is missing, raising `AttributeError`. -/
def Val.getDefault : Val → String → Val → Except PyErr Val
  | .obj kvs, k, dflt => .ok ((alistLookup kvs k).getD dflt)
  | _, _, _ => .error .attrErr

/-- Does the character list `needle` occur at the start of `hay`? -/
def startsWithList : List Char → List Char → Bool
  | [], _ => true
  | _ :: _, [] => false
  | a :: as, b :: bs => a == b && startsWithList as bs

/-- Does the character list `needle` occur anywhere inside `hay`? -/
def containsList (needle : List Char) : List Char → Bool
  | [] => needle.isEmpty
  | b :: bs => startsWithList needle (b :: bs) || containsList needle bs

/-- Python `k in v` for a string `k`: key test on mappings, substring test on
strings, elementwise equality on sequences, `TypeError` on `None`. -/
def Val.containsStr : Val → String → Except PyErr Bool
  | .obj kvs, k => .ok (kvs.any (fun kv => kv.1 == k))
  | .str s, k => .ok (containsList k.data s.data)
  | .list xs, k =>
    .ok (xs.any (fun v => match v with | .str s => s == k | _ => false))
  | .null, _ => .error .typeErr

/-- Python `str.strip()` on the underlying character list: drop the maximal
whitespace suffix, here applied after the prefix has been dropped. -/
def dropTrailWS (cs : List Char) : List Char :=
  (cs.reverse.dropWhile Char.isWhitespace).reverse

/-- Python `str.strip()`: remove leading and trailing whitespace. -/
def pyStrip (s : String) : String :=
  String.mk (dropTrailWS (s.data.dropWhile Char.isWhitespace))

/-- First-occurrence deduplication of a key list, the order `pandas` uses for
the union of the keys of a list of mappings: every later duplicate of an
earlier key is dropped, the first occurrences keeping their order. -/
def firstDedup : List String → List String
  | [] => []
  | k :: ks => k :: (firstDedup ks).filter (fun k2 => k2 ≠ k)

/-- The column index of a DataFrame: either an integer `RangeIndex` (as for
`pd.DataFrame([])` on pandas >= 2.0, or for non-mapping records) or an index
of string labels. -/
inductive Columns where
  | rangeIdx (n : Nat)
  | strIdx (names : List String)

/-- The fragment of `pandas.DataFrame` this client observes: a column index
and rows of cells aligned with it, a missing cell (`NaN`) being `none`. -/
structure DataFrame where
  columns : Columns
  rows : List (List (Option Val))

/-- Interpret every element of a record list as a mapping; `list(x.keys())`
on a non-mapping raises `AttributeError` inside the pandas constructor. -/
def valsAsObjs : List Val → Except PyErr (List (List (String × Val)))
  | [] => .ok []
  | .obj kvs :: rest =>
    match valsAsObjs rest with
    | .ok rs => .ok (kvs :: rs)
    | .error e => .error e
  | _ :: _ => .error .attrErr

/-- The column labels pandas derives from a list of mappings: the union of
their keys in order of first appearance. -/
def pdCols (kvss : List (List (String × Val))) : List String :=
  firstDedup (kvss.map (fun r => r.map Prod.fst)).flatten

/-- `pd.DataFrame(data)` for a list argument. An empty list yields an empty
frame with integer `RangeIndex` columns (pandas >= 2.0). When the first
element is a mapping, pandas reads keys off every element (raising if one is
not a mapping) and builds one row per record, cells filled by key lookup with
`NaN` for absent keys. Otherwise pandas packs the values into a single
integer-labelled column (we do not track the exact integer column count for
list-of-list data, only that the index is non-string, which is all the
`.str` rename step observes). -/
def pd_DataFrame (data : List Val) : Except PyErr DataFrame :=
  match data with
  | [] => .ok ⟨Columns.rangeIdx 0, []⟩
  | first :: _ =>
    match first with
    | .obj _ =>
      match valsAsObjs data with
      | .error e => .error e
      | .ok kvss =>
        .ok ⟨Columns.strIdx (pdCols kvss),
             kvss.map (fun r => (pdCols kvss).map (fun c => alistLookup r c))⟩
    | _ => .ok ⟨Columns.rangeIdx 1, data.map (fun v => [some v])⟩

/-- `df.columns = df.columns.str.strip()`: the `.str` accessor raises
`AttributeError` on a non-string (integer `RangeIndex`) column index;
otherwise every column label is stripped in place and the rows are untouched. -/
def stripColumns (df : DataFrame) : Except PyErr DataFrame :=
  match df.columns with
  | .rangeIdx _ => .error .attrErr
  | .strIdx names => .ok ⟨Columns.strIdx (names.map pyStrip), df.rows⟩

/-- Lines 98-99 / 153-154 of `src/main.py`: `if not isinstance(x, list):
x = [x]`. -/
def pyWrap : Val → List Val
  | .list xs => xs
  | v => [v]

/-- The outcome of the XML-normalization body: either the API-error path
(the code prints the error message value and returns `None`; the carried
`Val` is the printed `msg` value) or a constructed table. -/
inductive NormOut where
  | errorResult (msg : Val)
  | table (df : DataFrame)

/-- Lines 87-107 (and 142-162) of `src/main.py`: given the parsed
`xml_dict` and the record key (`"route"` or `"stop"`), check for an error
envelope, extract the record value (defaulting to an empty list), wrap a
non-list value, build the DataFrame and strip its column names. Every
Python statement that can raise propagates its exception through
`Except PyErr`. -/
def processParsed (xml_dict : Val) (recordKey : String) : Except PyErr NormOut :=
  match xml_dict.getDefault "bustime-response" (Val.obj []) with
  | .error e => .error e
  | .ok btr =>
    match btr.containsStr "error" with
    | .error e => .error e
    | .ok true =>
      match xml_dict.getItem "bustime-response" with
      | .error e => .error e
      | .ok br =>
        match br.getItem "error" with
        | .error e => .error e
        | .ok errObj =>
          match errObj.getItem "msg" with
          | .error e => .error e
          | .ok msg => .ok (NormOut.errorResult msg)
    | .ok false =>
      match xml_dict.getDefault "bustime-response" (Val.obj []) with
      | .error e => .error e
      | .ok btr2 =>
        match btr2.getDefault recordKey (Val.list []) with
        | .error e => .error e
        | .ok records =>
          match pd_DataFrame (pyWrap records) with
          | .error e => .error e
          | .ok df =>
            match stripColumns df with
            | .error e => .error e
            | .ok df2 => .ok (NormOut.table df2)

/-- Outcome of one HTTP call, abstracting transport and body parsing:
`transportError` is a `RequestException` from `requests.get` or
`raise_for_status` (e.g. an HTTP 500); `ok p` is a 2xx response whose body
parses to `p` (`Except.error ()` when the parser rejects the body —
`ExpatError` for xmltodict, `JSONDecodeError` for `response.json()`). -/
inductive Fetched where
  | transportError : Fetched
  | ok : Except Unit Val → Fetched

/-- Lines 64-114 of `src/main.py`: `get_bus_routes_with_key`. A transport
failure is caught by `except RequestException`; a parse failure and every
exception of the normalization body are caught by `except Exception`; the
API-error branch prints and returns `None`. Only a fully normalized table is
returned. -/
def get_bus_routes_with_key (api_key : String) (f : Fetched) : Option DataFrame :=
  match f with
  | .transportError => none
  | .ok (.error _) => none
  | .ok (.ok xml_dict) =>
    match processParsed xml_dict "route" with
    | .ok (NormOut.table df) => some df
    | .ok (NormOut.errorResult _) => none
    | .error _ => none

/-- Lines 117-169 of `src/main.py`: `get_bus_stops_with_key`, the same
pipeline with record key `"stop"` (the `route` and `direction` arguments
shape only the request). -/
def get_bus_stops_with_key (api_key route direction : String) (f : Fetched) :
    Option DataFrame :=
  match f with
  | .transportError => none
  | .ok (.error _) => none
  | .ok (.ok xml_dict) =>
    match processParsed xml_dict "stop" with
    | .ok (NormOut.table df) => some df
    | .ok (NormOut.errorResult _) => none
    | .error _ => none

/-- `pd.DataFrame(x)` for the argument of line 26, which need not be a list:
pandas raises `ValueError` for scalar or all-scalar-mapping arguments (the
shapes this endpoint can produce when the body is not a record list). -/
def pd_DataFrame_arg : Val → Except PyErr DataFrame
  | .list xs => pd_DataFrame xs
  | _ => .error .valueErr

/-- Line 26 of `src/main.py`: `pd.DataFrame(response["bustime-response"]["routes"])`,
two subscriptions followed by DataFrame construction, with no column strip. -/
def routesBody (body : Val) : Except PyErr DataFrame :=
  match body.getItem "bustime-response" with
  | .error e => .error e
  | .ok a =>
    match a.getItem "routes" with
    | .error e => .error e
    | .ok b => pd_DataFrame_arg b

/-- Lines 12-30 of `src/main.py`: `get_bus_routes`. Only
`requests.exceptions.RequestException` is caught (transport failures and,
for requests >= 2.27, JSON decode failures); any other exception raised
while extracting the record list propagates to the caller, which
`Except.error` makes explicit. -/
def get_bus_routes (f : Fetched) : Except PyErr (Option DataFrame) :=
  match f with
  | .transportError => .ok none
  | .ok (.error _) => .ok none
  | .ok (.ok body) =>
    match routesBody body with
    | .ok df => .ok (some df)
    | .error .requestErr => .ok none
    | .error e => .error e

/-- A Python scalar a caller may put in the `vehicle_ids` list. -/
inductive PyScalar where
  | pint (n : Int)
  | pstr (s : String)

/-- Python `str(vid)` on such a scalar. -/
def pyStr : PyScalar → String
  | .pint n => toString n
  | .pstr s => s

/-- The `vehicle_ids` argument of `get_bus_vehicles`: a list or a
comma-separated string. -/
inductive VehicleIds where
  | vlist (ids : List PyScalar)
  | vstr (s : String)

/-- Lines 44-45 of `src/main.py`: `if isinstance(vehicle_ids, list):
vehicle_ids = ",".join(str(vid) for vid in vehicle_ids)`. -/
def vidParam : VehicleIds → String
  | .vlist ids => String.intercalate "," (ids.map pyStr)
  | .vstr s => s

/-- Lines 48-53 of `src/main.py`: the query parameters of the
`getvehicles` request. -/
def get_bus_vehicles_params (api_key : String) (vehicle_ids : VehicleIds) :
    List (String × String) :=
  [("key", api_key), ("vid", vidParam vehicle_ids), ("tmres", "s"),
   ("format", "json")]

/-- Lookup in a string-valued parameter list. -/
def paramLookup : List (String × String) → String → Option String
  | [], _ => none
  | p :: ps, k => if p.1 = k then some p.2 else paramLookup ps k

/-- Lines 33-61 of `src/main.py`: `get_bus_vehicles` returns
`response.json()` itself — the raw parsed body with no normalization — or
`None` when the only caught exception kind, `RequestException`, fires. -/
def get_bus_vehicles (vehicle_ids : VehicleIds) (f : Fetched) : Option Val :=
  match f with
  | .transportError => none
  | .ok (.error _) => none
  | .ok (.ok body) => some body

/-- A string with no leading and no trailing whitespace. -/
def noEdgeWS (s : String) : Prop :=
  (∀ c, s.data.head? = some c → c.isWhitespace = false) ∧
  (∀ c, s.data.getLast? = some c → c.isWhitespace = false)

/-- A successful lookup returns the value of some binding of the list. -/
theorem alistLookup_mem (l : List (String × Val)) (k : String) (v : Val)
    (h : alistLookup l k = some v) : ∃ p, p ∈ l ∧ p.2 = v := by
  induction l with
  | nil => simp [alistLookup] at h
  | cons p ps ih =>
    by_cases hp : p.1 = k
    · simp [alistLookup, hp] at h
      exact ⟨p, List.mem_cons_self p ps, h⟩
    · simp only [alistLookup, if_neg hp] at h
      obtain ⟨q, hq, hv⟩ := ih h
      exact ⟨q, List.mem_cons_of_mem p hq, hv⟩

/-- A key witnessed by `List.any` has a successful lookup. -/
theorem alistLookup_isSome_of_any (l : List (String × Val)) (k : String)
    (h : l.any (fun kv => kv.1 == k) = true) : ∃ v, alistLookup l k = some v := by
  induction l with
  | nil => simp at h
  | cons p ps ih =>
    by_cases hp : p.1 = k
    · exact ⟨p.2, by simp [alistLookup, hp]⟩
    · simp only [List.any_cons, Bool.or_eq_true, beq_iff_eq, hp, false_or] at h
      obtain ⟨v, hv⟩ := ih h
      exact ⟨v, by simp [alistLookup, hp, hv]⟩

/-- Interpreting a mapped list of mappings succeeds and returns them. -/
theorem valsAsObjs_map_obj (kvss : List (List (String × Val))) :
    valsAsObjs (kvss.map Val.obj) = .ok kvss := by
  induction kvss with
  | nil => rfl
  | cons r rest ih => simp [valsAsObjs, ih]

/-- `pd.DataFrame` on a nonempty list of mappings: string columns from the
first-appearance union of keys, one row per record, cells by lookup. -/
theorem pd_DataFrame_objs (kvss : List (List (String × Val))) (hne : kvss ≠ []) :
    pd_DataFrame (kvss.map Val.obj) =
      .ok ⟨Columns.strIdx (pdCols kvss),
           kvss.map (fun r => (pdCols kvss).map (fun c => alistLookup r c))⟩ := by
  cases kvss with
  | nil => exact absurd rfl hne
  | cons r rest =>
    show pd_DataFrame (Val.obj r :: rest.map Val.obj) = _
    have h := valsAsObjs_map_obj (r :: rest)
    simp only [List.map_cons] at h
    simp [pd_DataFrame, h]

/-- Reduction of the normalization body on the no-error data path, up to the
DataFrame stage. -/
theorem processParsed_success (d btr : List (String × Val)) (key : String)
    (records : Val) (kvss : List (List (String × Val)))
    (hb : alistLookup d "bustime-response" = some (Val.obj btr))
    (he : btr.any (fun kv => kv.1 == "error") = false)
    (hk : alistLookup btr key = some records)
    (hw : pyWrap records = kvss.map Val.obj) (hne : kvss ≠ []) :
    processParsed (Val.obj d) key =
      .ok (NormOut.table ⟨Columns.strIdx ((pdCols kvss).map pyStrip),
        kvss.map (fun r => (pdCols kvss).map (fun c => alistLookup r c))⟩) := by
  have h1 : (Val.obj d).getDefault "bustime-response" (Val.obj []) =
      .ok (Val.obj btr) := by simp [Val.getDefault, hb]
  have h2 : (Val.obj btr).containsStr "error" = .ok false := by
    simp [Val.containsStr, he]
  have h3 : (Val.obj btr).getDefault key (Val.list []) = .ok records := by
    simp [Val.getDefault, hk]
  simp only [processParsed, h1, h2, h3, hw, pd_DataFrame_objs kvss hne,
    stripColumns]

/-- Reduction of the normalization body on the error-envelope path: the
result is the printed message when `error.msg` subscription succeeds, and the
propagated exception when it raises; a table is never produced. -/
theorem processParsed_error_eq (d btr : List (String × Val)) (key : String)
    (v : Val)
    (hb : alistLookup d "bustime-response" = some (Val.obj btr))
    (he : btr.any (fun kv => kv.1 == "error") = true)
    (hv : alistLookup btr "error" = some v) :
    processParsed (Val.obj d) key =
      match v.getItem "msg" with
      | .error e => .error e
      | .ok m => .ok (NormOut.errorResult m) := by
  have h1 : (Val.obj d).getDefault "bustime-response" (Val.obj []) =
      .ok (Val.obj btr) := by simp [Val.getDefault, hb]
  have h2 : (Val.obj btr).containsStr "error" = .ok true := by
    simp [Val.containsStr, he]
  have h3 : (Val.obj d).getItem "bustime-response" = .ok (Val.obj btr) := by
    simp [Val.getItem, hb]
  have h4 : (Val.obj btr).getItem "error" = .ok v := by
    simp [Val.getItem, hv]
  simp only [processParsed, h1, h2, h3, h4]

/-- The head surviving `dropWhile` fails the predicate. -/
theorem dropWhile_head_not (p : Char → Bool) (l : List Char) (c : Char)
    (h : (l.dropWhile p).head? = some c) : p c = false := by
  induction l with
  | nil => simp [List.dropWhile] at h
  | cons a as ih =>
    rw [List.dropWhile_cons] at h
    by_cases hp : p a
    · rw [if_pos hp] at h
      exact ih h
    · rw [if_neg hp] at h
      simp only [List.head?_cons, Option.some_inj] at h
      subst h
      exact Bool.eq_false_iff.mpr hp

/-- Stripping removes all trailing whitespace. -/
theorem pyStrip_getLast (s : String) (c : Char)
    (h : (pyStrip s).data.getLast? = some c) : c.isWhitespace = false := by
  have hd : (pyStrip s).data =
      ((s.data.dropWhile Char.isWhitespace).reverse.dropWhile
        Char.isWhitespace).reverse := rfl
  rw [hd, List.getLast?_reverse] at h
  exact dropWhile_head_not Char.isWhitespace _ c h

/-- Stripping removes all leading whitespace. -/
theorem pyStrip_head (s : String) (c : Char)
    (h : (pyStrip s).data.head? = some c) : c.isWhitespace = false := by
  set m := s.data.dropWhile Char.isWhitespace with hm
  have hd : (pyStrip s).data = (m.reverse.dropWhile Char.isWhitespace).reverse :=
    rfl
  have hsplit : m = (m.reverse.dropWhile Char.isWhitespace).reverse ++
      (m.reverse.takeWhile Char.isWhitespace).reverse := by
    conv_lhs => rw [← List.reverse_reverse m]
    rw [← List.reverse_append, List.takeWhile_append_dropWhile]
  rw [hd] at h
  cases hx : (m.reverse.dropWhile Char.isWhitespace).reverse with
  | nil => rw [hx] at h; simp at h
  | cons a t =>
    rw [hx] at h
    simp only [List.head?_cons, Option.some_inj] at h
    have hmh : m.head? = some c := by
      rw [hsplit, hx, h]
      rfl
    rw [hm] at hmh
    exact dropWhile_head_not Char.isWhitespace _ c hmh

/-- The result of a Python strip has no edge whitespace. -/
theorem noEdgeWS_pyStrip (s : String) : noEdgeWS (pyStrip s) :=
  ⟨fun c h => pyStrip_head s c h, fun c h => pyStrip_getLast s c h⟩

/-- First-occurrence deduplication preserves membership. -/
theorem mem_firstDedup (a : String) (l : List String) :
    a ∈ firstDedup l ↔ a ∈ l := by
  induction l with
  | nil => simp [firstDedup]
  | cons k ks ih =>
    show a ∈ k :: (firstDedup ks).filter (fun k2 => k2 ≠ k) ↔ a ∈ k :: ks
    constructor
    · intro h
      rcases List.mem_cons.mp h with h | h
      · exact h ▸ List.mem_cons_self k ks
      · exact List.mem_cons_of_mem k (ih.mp (List.mem_filter.mp h).1)
    · intro h
      rcases List.mem_cons.mp h with h | h
      · exact h ▸ List.mem_cons_self _ _
      · by_cases hak : a = k
        · exact hak ▸ List.mem_cons_self _ _
        · exact List.mem_cons_of_mem k
            (List.mem_filter.mpr ⟨ih.mpr h, by simp [hak]⟩)

/-- Any exception in the routes normalization body is caught and the public
function returns `None`. -/
theorem routes_xml_none_of_error (ak : String) (v : Val) (e : PyErr)
    (h : processParsed v "route" = .error e) :
    get_bus_routes_with_key ak (.ok (.ok v)) = none := by
  simp [get_bus_routes_with_key, h]

/-- Any exception in the stops normalization body is caught and the public
function returns `None`. -/
theorem stops_xml_none_of_error (ak rt dir : String) (v : Val) (e : PyErr)
    (h : processParsed v "stop" = .error e) :
    get_bus_stops_with_key ak rt dir (.ok (.ok v)) = none := by
  simp [get_bus_stops_with_key, h]

/-- An API-error result in the routes normalization body yields `None`. -/
theorem routes_xml_none_of_errorResult (ak : String) (v m : Val)
    (h : processParsed v "route" = .ok (NormOut.errorResult m)) :
    get_bus_routes_with_key ak (.ok (.ok v)) = none := by
  simp [get_bus_routes_with_key, h]

/-- An API-error result in the stops normalization body yields `None`. -/
theorem stops_xml_none_of_errorResult (ak rt dir : String) (v m : Val)
    (h : processParsed v "stop" = .ok (NormOut.errorResult m)) :
    get_bus_stops_with_key ak rt dir (.ok (.ok v)) = none := by
  simp [get_bus_stops_with_key, h]

/-- Claim C1: for every envelope whose record field (`route` or `stop`) holds
a single mapping rather than a sequence of mappings, normalization wraps it:
the resulting table has exactly one row, never a bare mapping. -/
theorem claim_c1_single_mapping_wrapped (d btr r : List (String × Val))
    (key : String)
    (hb : alistLookup d "bustime-response" = some (Val.obj btr))
    (he : btr.any (fun kv => kv.1 == "error") = false)
    (hk : alistLookup btr key = some (Val.obj r)) :
    ∃ df, processParsed (Val.obj d) key = .ok (NormOut.table df) ∧
      df.rows.length = 1 := by
  refine ⟨_, processParsed_success d btr key (Val.obj r) [r] hb he hk rfl
    (by simp), ?_⟩
  simp

/-- Claim C1 witness: the spec scenario, a single route mapping
`{"rt": "151", "rtnm": "Sheridan"}`, normalizes to a one-row table. -/
theorem claim_c1_witness :
    ∃ df, processParsed (Val.obj [("bustime-response", Val.obj [("route",
        Val.obj [("rt", Val.str "151"), ("rtnm", Val.str "Sheridan")])])])
      "route" = .ok (NormOut.table df) ∧ df.rows.length = 1 :=
  claim_c1_single_mapping_wrapped _ _ _ "route" rfl rfl rfl

/-- Claim C2: for every envelope containing an `error` key, the
normalization body never yields a table, the public XML operations return
`None` without raising, and when the error object carries a `msg` value the
result is the error result carrying exactly that message. -/
theorem claim_c2_error_envelope (d btr : List (String × Val)) (key : String)
    (hb : alistLookup d "bustime-response" = some (Val.obj btr))
    (he : btr.any (fun kv => kv.1 == "error") = true) :
    (∀ df, processParsed (Val.obj d) key ≠ .ok (NormOut.table df)) ∧
    (∀ ak, get_bus_routes_with_key ak (.ok (.ok (Val.obj d))) = none) ∧
    (∀ ak rt dir,
      get_bus_stops_with_key ak rt dir (.ok (.ok (Val.obj d))) = none) ∧
    (∀ eObj m, alistLookup btr "error" = some (Val.obj eObj) →
      alistLookup eObj "msg" = some m →
      processParsed (Val.obj d) key = .ok (NormOut.errorResult m)) := by
  obtain ⟨v, hv⟩ := alistLookup_isSome_of_any btr "error" he
  have hred : ∀ k, processParsed (Val.obj d) k =
      match v.getItem "msg" with
      | .error e => .error e
      | .ok m => .ok (NormOut.errorResult m) :=
    fun k => processParsed_error_eq d btr k v hb he hv
  refine ⟨?_, ?_, ?_, ?_⟩
  · intro df hdf
    rw [hred key] at hdf
    cases hmsg : v.getItem "msg" with
    | error e => rw [hmsg] at hdf; exact Except.noConfusion hdf
    | ok m => rw [hmsg] at hdf; simp at hdf
  · intro ak
    cases hmsg : v.getItem "msg" with
    | error e =>
      exact routes_xml_none_of_error ak _ e (by rw [hred "route", hmsg])
    | ok m =>
      exact routes_xml_none_of_errorResult ak _ m (by rw [hred "route", hmsg])
  · intro ak rt dir
    cases hmsg : v.getItem "msg" with
    | error e =>
      exact stops_xml_none_of_error ak rt dir _ e (by rw [hred "stop", hmsg])
    | ok m =>
      exact stops_xml_none_of_errorResult ak rt dir _ m
        (by rw [hred "stop", hmsg])
  · intro eObj m h1 h2
    have hveq : v = Val.obj eObj := by
      rw [hv] at h1
      exact Option.some_inj.mp h1
    rw [hred key, hveq]
    simp [Val.getItem, h2]

/-- Claim C2 witness: the spec scenario, envelope
`{"error": {"msg": "No API key"}}`, yields the error result carrying exactly
`"No API key"` and the public routes operation returns `None`. -/
theorem claim_c2_witness :
    processParsed (Val.obj [("bustime-response", Val.obj [("error",
        Val.obj [("msg", Val.str "No API key")])])]) "route"
      = .ok (NormOut.errorResult (Val.str "No API key")) ∧
    get_bus_routes_with_key "k" (.ok (.ok (Val.obj [("bustime-response",
        Val.obj [("error", Val.obj [("msg", Val.str "No API key")])])])))
      = none := by
  have h := claim_c2_error_envelope
    [("bustime-response", Val.obj [("error",
      Val.obj [("msg", Val.str "No API key")])])]
    [("error", Val.obj [("msg", Val.str "No API key")])] "route" rfl rfl
  exact ⟨h.2.2.2 _ _ rfl rfl, h.2.1 "k"⟩

/-- Claim C3 counterexample: an envelope holding an empty record list (N = 0
well-formed records) does not yield a 0-row table: on pandas >= 2.0 the empty
frame has integer `RangeIndex` columns, the `.str.strip()` rename raises
`AttributeError`, and the public operation returns `None`. -/
theorem claim_c3_counterexample :
    processParsed (Val.obj [("bustime-response", Val.obj [("route",
        Val.list [])])]) "route" = .error PyErr.attrErr ∧
    get_bus_routes_with_key "k" (.ok (.ok (Val.obj [("bustime-response",
        Val.obj [("route", Val.list [])])]))) = none :=
  ⟨rfl, rfl⟩

/-- Claim C3 (amended to N >= 1): normalizing a non-error envelope holding a
nonempty sequence of N record mappings yields a table of exactly N rows whose
cells are exactly the looked-up record values, unchanged. -/
theorem claim_c3_n_records_n_rows (d btr : List (String × Val)) (key : String)
    (rs : List Val) (kvss : List (List (String × Val)))
    (hb : alistLookup d "bustime-response" = some (Val.obj btr))
    (he : btr.any (fun kv => kv.1 == "error") = false)
    (hk : alistLookup btr key = some (Val.list rs))
    (hrs : rs = kvss.map Val.obj) (hne : rs ≠ []) :
    ∃ df, processParsed (Val.obj d) key = .ok (NormOut.table df) ∧
      df.rows.length = rs.length ∧
      df.rows = kvss.map (fun r => (pdCols kvss).map (fun c =>
        alistLookup r c)) := by
  have hkv : kvss ≠ [] := by
    intro hk0
    rw [hk0] at hrs
    simp at hrs
    exact hne hrs
  refine ⟨_, processParsed_success d btr key (Val.list rs) kvss hb he hk
    (by simpa [pyWrap] using hrs) hkv, ?_, rfl⟩
  simp [hrs]

/-- Claim C3 witness: two well-formed route records normalize to exactly two
rows. -/
theorem claim_c3_witness :
    ∃ df, processParsed (Val.obj [("bustime-response", Val.obj [("route",
        Val.list [Val.obj [("rt", Val.str "151")],
                  Val.obj [("rt", Val.str "8")]])])])
      "route" = .ok (NormOut.table df) ∧ df.rows.length = 2 := by
  obtain ⟨df, h1, h2, h3⟩ := claim_c3_n_records_n_rows
    [("bustime-response", Val.obj [("route",
      Val.list [Val.obj [("rt", Val.str "151")],
        Val.obj [("rt", Val.str "8")]])])]
    [("route", Val.list [Val.obj [("rt", Val.str "151")],
      Val.obj [("rt", Val.str "8")]])] "route"
    [Val.obj [("rt", Val.str "151")], Val.obj [("rt", Val.str "8")]]
    [[("rt", Val.str "151")], [("rt", Val.str "8")]] rfl rfl rfl rfl
    (by simp)
  exact ⟨df, h1, by simp [h2]⟩

/-- Claim C4: in every table the XML normalization produces, the column
names are the whitespace-stripped record keys: every column name is free of
leading and trailing whitespace, and the set of column names is exactly the
set of record field names up to stripping — none added, none dropped. -/
theorem claim_c4_field_names_trimmed (d btr : List (String × Val))
    (key : String) (records : Val) (kvss : List (List (String × Val)))
    (hb : alistLookup d "bustime-response" = some (Val.obj btr))
    (he : btr.any (fun kv => kv.1 == "error") = false)
    (hk : alistLookup btr key = some records)
    (hw : pyWrap records = kvss.map Val.obj) (hne : kvss ≠ []) :
    ∃ df, processParsed (Val.obj d) key = .ok (NormOut.table df) ∧
      df.columns = Columns.strIdx ((pdCols kvss).map pyStrip) ∧
      (∀ c, c ∈ (pdCols kvss).map pyStrip → noEdgeWS c) ∧
      (∀ c, c ∈ (pdCols kvss).map pyStrip ↔
        ∃ k, k ∈ (kvss.map (fun r => r.map Prod.fst)).flatten ∧
          c = pyStrip k) := by
  refine ⟨_, processParsed_success d btr key records kvss hb he hk hw hne,
    rfl, ?_, ?_⟩
  · intro c hc
    obtain ⟨k, _, hk2⟩ := List.mem_map.mp hc
    exact hk2 ▸ noEdgeWS_pyStrip k
  · intro c
    constructor
    · intro hc
      obtain ⟨k, hk1, hk2⟩ := List.mem_map.mp hc
      exact ⟨k, (mem_firstDedup k _).mp hk1, hk2.symm⟩
    · rintro ⟨k, hk1, rfl⟩
      exact List.mem_map.mpr ⟨k, (mem_firstDedup k _).mpr hk1, rfl⟩

/-- Claim C4 witness: a record key carrying incidental whitespace, `" rt "`,
appears in the output as the trimmed column name `"rt"`. -/
theorem claim_c4_witness :
    ∃ df, processParsed (Val.obj [("bustime-response", Val.obj [("route",
        Val.obj [(" rt ", Val.str "151")])])]) "route"
      = .ok (NormOut.table df) ∧ df.columns = Columns.strIdx ["rt"] := by
  obtain ⟨df, h1, h2, _, _⟩ := claim_c4_field_names_trimmed
    [("bustime-response", Val.obj [("route",
      Val.obj [(" rt ", Val.str "151")])])]
    [("route", Val.obj [(" rt ", Val.str "151")])] "route"
    (Val.obj [(" rt ", Val.str "151")]) [[(" rt ", Val.str "151")]]
    rfl rfl rfl rfl (by simp)
  refine ⟨df, h1, ?_⟩
  rw [h2]
  rfl

/-- Claim C5 counterexample: when the record key is absent the code does read
an empty sequence, but the resulting empty DataFrame has integer `RangeIndex`
columns (pandas >= 2.0), the `.str.strip()` rename raises `AttributeError`,
and the public operation returns `None` — not an empty table. -/
theorem claim_c5_counterexample :
    processParsed (Val.obj [("bustime-response", Val.obj [])]) "route"
      = .error PyErr.attrErr ∧
    get_bus_routes_with_key "k"
      (.ok (.ok (Val.obj [("bustime-response", Val.obj [])]))) = none :=
  ⟨rfl, rfl⟩

/-- Claim C5 (amended): for every non-error envelope in which the record key
is absent, normalization treats the value as an empty sequence, but the
pipeline then raises `AttributeError` at the column-rename step (pandas >=
2.0: `.str` on the empty frame's integer `RangeIndex`), so the public
operation returns `None` rather than an empty table. -/
theorem claim_c5_absent_key_none (d btr : List (String × Val)) (key : String)
    (hb : alistLookup d "bustime-response" = some (Val.obj btr))
    (he : btr.any (fun kv => kv.1 == "error") = false)
    (hk : alistLookup btr key = none) :
    processParsed (Val.obj d) key = .error PyErr.attrErr ∧
    (key = "route" →
      ∀ ak, get_bus_routes_with_key ak (.ok (.ok (Val.obj d))) = none) ∧
    (key = "stop" → ∀ ak rt dir,
      get_bus_stops_with_key ak rt dir (.ok (.ok (Val.obj d))) = none) := by
  have h1 : (Val.obj d).getDefault "bustime-response" (Val.obj []) =
      .ok (Val.obj btr) := by simp [Val.getDefault, hb]
  have h2 : (Val.obj btr).containsStr "error" = .ok false := by
    simp [Val.containsStr, he]
  have h3 : (Val.obj btr).getDefault key (Val.list []) = .ok (Val.list []) := by
    simp [Val.getDefault, hk]
  have hmain : processParsed (Val.obj d) key = .error PyErr.attrErr := by
    simp only [processParsed, h1, h2, h3]
    rfl
  refine ⟨hmain, ?_, ?_⟩
  · rintro rfl ak
    exact routes_xml_none_of_error ak _ _ hmain
  · rintro rfl ak rt dir
    exact stops_xml_none_of_error ak rt dir _ _ hmain

/-- Claim C5 witness: a concrete non-error envelope without the `stop` key
makes the stops pipeline raise internally and the public stops operation
return `None`. -/
theorem claim_c5_witness :
    processParsed (Val.obj [("bustime-response", Val.obj [("vid",
        Val.str "1242")])]) "stop" = .error PyErr.attrErr ∧
    get_bus_stops_with_key "k" "151" "Northbound" (.ok (.ok (Val.obj
        [("bustime-response", Val.obj [("vid", Val.str "1242")])]))) = none := by
  have h := claim_c5_absent_key_none
    [("bustime-response", Val.obj [("vid", Val.str "1242")])]
    [("vid", Val.str "1242")] "stop" rfl rfl rfl
  exact ⟨h.1, h.2.2 rfl "k" "151" "Northbound"⟩

/-- Claim C6 counterexample: `get_bus_routes` catches only
`RequestException`, so on an upstream error envelope (the body has no
`routes` key) the extraction `response["bustime-response"]["routes"]` raises
`KeyError`, which escapes to the caller instead of `None`. -/
theorem claim_c6_counterexample :
    get_bus_routes (.ok (.ok (Val.obj [("bustime-response", Val.obj
        [("error", Val.list [Val.obj [("msg", Val.str "No API key")]])])])))
      = .error PyErr.keyErr := rfl

/-- Claim C6 (amended): transport failures, and JSON/XML parse failures,
return `None` for all four operations; for the two XML operations every
normalization-body exception is also caught and returns `None`; but for the
routes-JSON operation an upstream error envelope or extraction failure
raises (`KeyError` escapes) instead of returning `None`. -/
theorem claim_c6_failure_handling_amended :
    get_bus_routes .transportError = .ok none ∧
    get_bus_routes (.ok (.error ())) = .ok none ∧
    (∀ ids, get_bus_vehicles ids .transportError = none) ∧
    (∀ ids, get_bus_vehicles ids (.ok (.error ())) = none) ∧
    (∀ ak, get_bus_routes_with_key ak .transportError = none) ∧
    (∀ ak, get_bus_routes_with_key ak (.ok (.error ())) = none) ∧
    (∀ ak v e, processParsed v "route" = .error e →
      get_bus_routes_with_key ak (.ok (.ok v)) = none) ∧
    (∀ ak rt dir, get_bus_stops_with_key ak rt dir .transportError = none) ∧
    (∀ ak rt dir,
      get_bus_stops_with_key ak rt dir (.ok (.error ())) = none) ∧
    (∀ ak rt dir v e, processParsed v "stop" = .error e →
      get_bus_stops_with_key ak rt dir (.ok (.ok v)) = none) ∧
    get_bus_routes (.ok (.ok (Val.obj [("bustime-response", Val.obj
        [("error", Val.list [Val.obj [("msg", Val.str "No API key")]])])])))
      = .error PyErr.keyErr := by
  refine ⟨rfl, rfl, fun ids => rfl, fun ids => rfl, fun ak => rfl,
    fun ak => rfl, ?_, fun ak rt dir => rfl, fun ak rt dir => rfl, ?_, rfl⟩
  · intro ak v e h
    exact routes_xml_none_of_error ak v e h
  · intro ak rt dir v e h
    exact stops_xml_none_of_error ak rt dir v e h

/-- Claim C6 witness: a body of unexpected shape (a bare string) makes the
routes-XML operation return `None`: the internal `AttributeError` is caught. -/
theorem claim_c6_witness :
    get_bus_routes_with_key "k" (.ok (.ok (Val.str "oops"))) = none :=
  claim_c6_failure_handling_amended.2.2.2.2.2.2.1 "k" (Val.str "oops")
    PyErr.attrErr rfl

/-- Claim C7 counterexample: `get_bus_vehicles` returns `response.json()`
itself — the raw, un-normalized parsed body comes back unchanged. -/
theorem claim_c7_counterexample :
    get_bus_vehicles (VehicleIds.vstr "1242") (.ok (.ok (Val.obj
        [("bustime-response", Val.obj [("vehicle", Val.list [])])])))
      = some (Val.obj [("bustime-response", Val.obj
        [("vehicle", Val.list [])])]) := rfl

/-- Claim C7 (amended): the two XML operations return a normalized table or
`None`; the vehicles operation returns `None` or the raw parsed response
body itself, exactly as fetched, with no normalization. -/
theorem claim_c7_return_shapes_amended :
    (∀ ak f, get_bus_routes_with_key ak f = none ∨
      ∃ df, get_bus_routes_with_key ak f = some df) ∧
    (∀ ak rt dir f, get_bus_stops_with_key ak rt dir f = none ∨
      ∃ df, get_bus_stops_with_key ak rt dir f = some df) ∧
    (∀ ids f, get_bus_vehicles ids f = none ∨
      ∃ v, get_bus_vehicles ids f = some v ∧ f = .ok (.ok v)) := by
  refine ⟨fun ak f => ?_, fun ak rt dir f => ?_, fun ids f => ?_⟩
  · cases h : get_bus_routes_with_key ak f with
    | none => exact Or.inl rfl
    | some df => exact Or.inr ⟨df, rfl⟩
  · cases h : get_bus_stops_with_key ak rt dir f with
    | none => exact Or.inl rfl
    | some df => exact Or.inr ⟨df, rfl⟩
  · cases f with
    | transportError => exact Or.inl rfl
    | ok p =>
      cases p with
      | error u => exact Or.inl rfl
      | ok v => exact Or.inr ⟨v, rfl, rfl⟩

/-- Claim C8: normalization performs no numeric coercion and no type
inference: every cell of the output table is exactly the value looked up in
the corresponding envelope record, and when every record field value is a
string, every present cell is that exact string. -/
theorem claim_c8_values_unchanged (d btr : List (String × Val))
    (key : String) (records : Val) (kvss : List (List (String × Val)))
    (hb : alistLookup d "bustime-response" = some (Val.obj btr))
    (he : btr.any (fun kv => kv.1 == "error") = false)
    (hk : alistLookup btr key = some records)
    (hw : pyWrap records = kvss.map Val.obj) (hne : kvss ≠ [])
    (hvals : ∀ r, r ∈ kvss → ∀ p, p ∈ r → ∃ s, p.2 = Val.str s) :
    ∃ df, processParsed (Val.obj d) key = .ok (NormOut.table df) ∧
      df.rows = kvss.map (fun r => (pdCols kvss).map (fun c =>
        alistLookup r c)) ∧
      (∀ row, row ∈ df.rows → ∀ cell, cell ∈ row → ∀ v, cell = some v →
        ∃ s, v = Val.str s) := by
  refine ⟨_, processParsed_success d btr key records kvss hb he hk hw hne,
    rfl, ?_⟩
  intro row hrow cell hcell v hv
  obtain ⟨r, hr, rfl⟩ := List.mem_map.mp hrow
  obtain ⟨c, _, rfl⟩ := List.mem_map.mp hcell
  obtain ⟨p, hp, hpv⟩ := alistLookup_mem r c v hv
  obtain ⟨s, hs⟩ := hvals r hr p hp
  exact ⟨s, hpv ▸ hs⟩

/-- Claim C8 witness: a record value `"151"` appears in the output cell as
exactly the string `"151"`. -/
theorem claim_c8_witness :
    ∃ df, processParsed (Val.obj [("bustime-response", Val.obj [("route",
        Val.obj [("rt", Val.str "151")])])]) "route"
      = .ok (NormOut.table df) ∧ df.rows = [[some (Val.str "151")]] := by
  obtain ⟨df, h1, h2, h3⟩ := claim_c8_values_unchanged
    [("bustime-response", Val.obj [("route",
      Val.obj [("rt", Val.str "151")])])]
    [("route", Val.obj [("rt", Val.str "151")])] "route"
    (Val.obj [("rt", Val.str "151")]) [[("rt", Val.str "151")]]
    rfl rfl rfl rfl (by simp)
    (by rintro r hr p hp
        simp at hr
        subst hr
        simp at hp
        exact ⟨"151", by rw [hp]⟩)
  refine ⟨df, h1, ?_⟩
  rw [h2]
  rfl

/-- Claim C9: the two XML operations are total at their public interface:
for every fetched outcome they return a table or `None`; every
normalization-body exception is caught and mapped to `None`; and a body the
XML parser rejects also yields `None`. -/
theorem claim_c9_xml_operations_total :
    (∀ ak f, get_bus_routes_with_key ak f = none ∨
      ∃ df, get_bus_routes_with_key ak f = some df) ∧
    (∀ ak rt dir f, get_bus_stops_with_key ak rt dir f = none ∨
      ∃ df, get_bus_stops_with_key ak rt dir f = some df) ∧
    (∀ ak v e, processParsed v "route" = .error e →
      get_bus_routes_with_key ak (.ok (.ok v)) = none) ∧
    (∀ ak rt dir v e, processParsed v "stop" = .error e →
      get_bus_stops_with_key ak rt dir (.ok (.ok v)) = none) ∧
    (∀ ak, get_bus_routes_with_key ak (.ok (.error ())) = none) ∧
    (∀ ak rt dir, get_bus_stops_with_key ak rt dir (.ok (.error ())) = none) := by
  refine ⟨fun ak f => ?_, fun ak rt dir f => ?_, ?_, ?_, fun ak => rfl,
    fun ak rt dir => rfl⟩
  · cases h : get_bus_routes_with_key ak f with
    | none => exact Or.inl rfl
    | some df => exact Or.inr ⟨df, rfl⟩
  · cases h : get_bus_stops_with_key ak rt dir f with
    | none => exact Or.inl rfl
    | some df => exact Or.inr ⟨df, rfl⟩
  · intro ak v e h
    exact routes_xml_none_of_error ak v e h
  · intro ak rt dir v e h
    exact stops_xml_none_of_error ak rt dir v e h

/-- Claim C9 witness: an envelope of unexpected shape (`bustime-response` is
`None`, as xmltodict produces for an empty element) makes the stops
operation return `None`, the internal exception being caught. -/
theorem claim_c9_witness :
    get_bus_stops_with_key "k" "151" "Northbound"
      (.ok (.ok Val.null)) = none :=
  claim_c9_xml_operations_total.2.2.2.1 "k" "151" "Northbound" Val.null
    PyErr.attrErr rfl

/-- Claim C10: `get_bus_vehicles` accepts its vehicle-ID argument as a list
or as a comma-separated string: a list is converted elementwise with `str`
and joined with commas, a string passes through unchanged, and the result is
sent as the `vid` request parameter. -/
theorem claim_c10_vehicle_ids :
    (∀ ids, vidParam (VehicleIds.vlist ids) =
      String.intercalate "," (ids.map pyStr)) ∧
    (∀ s, vidParam (VehicleIds.vstr s) = s) ∧
    (∀ ak vids, paramLookup (get_bus_vehicles_params ak vids) "vid" =
      some (vidParam vids)) := by
  refine ⟨fun ids => rfl, fun s => rfl, fun ak vids => ?_⟩
  rfl

end CTA
